import Mathlib

/-!
Verification development for the LocalLens-Bengaluru response-orchestration
pipeline. The TypeScript services (RateLimiter, ContextManager,
ResponseGenerator, SlangInterpreter, LocationService, APIKeyManager) are
shallowly embedded as executable Lean definitions; external dependencies
(filesystem, OpenAI, Google Maps) are passed in as explicit oracle
parameters, and the wall clock is an explicit integer parameter, so every
function here is pure and total.
-/

namespace LocalLens

/-- JS `String.prototype.toLowerCase`, restricted to the per-character
lowercasing that the ASCII-dominated context data exercises. -/
def jsToLower (s : String) : String :=
  ⟨s.toList.map Char.toLower⟩

/-- Does `sub` occur as a contiguous run inside `l`? -/
def listContains (sub : List Char) : List Char → Bool
  | [] => sub.isEmpty
  | c :: rest => List.isPrefixOf sub (c :: rest) || listContains sub rest

/-- JS `String.prototype.includes`: substring containment. -/
def jsIncludes (s sub : String) : Bool :=
  listContains sub.toList s.toList

/-- JS whitespace class used by the regexes (`\s`). -/
def jsIsSpace (c : Char) : Bool :=
  c.isWhitespace

/-- JS `String.prototype.trim`: strip leading and trailing whitespace. -/
def jsTrim (s : String) : String :=
  ⟨((s.toList.dropWhile jsIsSpace).reverse.dropWhile jsIsSpace).reverse⟩

/-- JS `String.prototype.startsWith`. -/
def jsStartsWith (s pre : String) : Bool :=
  List.isPrefixOf pre.toList s.toList

/-- JS `String.prototype.split` on a single-character separator
(every split in the embedded services uses one). -/
def jsSplitOnChar (sep : Char) (s : String) : List String :=
  (s.toList.splitOn sep).map (fun l => ⟨l⟩)

/-- Association-list model of a JS `Map` / plain object keyed by strings:
`set` replaces an existing binding in place (JS `Map.set` keeps the original
insertion position) and appends a fresh key at the end. -/
def mapSet {α : Type} : List (String × α) → String → α → List (String × α)
  | [], k, v => [(k, v)]
  | (k', v') :: rest, k, v =>
      if k' = k then (k, v) :: rest else (k', v') :: mapSet rest k v

/-- JS `Map.get` (as `Option`). -/
def mapGet {α : Type} (m : List (String × α)) (k : String) : Option α :=
  (m.find? (fun kv => kv.1 = k)).map (·.2)

/-- JS `Map.has`. -/
def mapHas {α : Type} (m : List (String × α)) (k : String) : Bool :=
  (mapGet m k).isSome

/-- JS `Map.delete`. -/
def mapDelete {α : Type} (m : List (String × α)) (k : String) : List (String × α) :=
  m.filter (fun kv => kv.1 ≠ k)

/-- Integer ceiling division by a positive divisor, mirroring
`Math.ceil(a / b)` on integral operands. -/
def ceilDiv (a b : Int) : Int :=
  Int.fdiv (a + b - 1) b

/-! ## RateLimiter (src RateLimiter.ts)

`Date.now()` becomes an explicit `now : Int` argument (milliseconds); the
`requests` map becomes a total function defaulting to `[]`, matching the
source's `this.requests.get(identifier) || []`. -/

structure RateLimitConfig where
  maxRequests : Int
  windowMs : Int
deriving Repr, DecidableEq

structure RateLimitResult where
  allowed : Bool
  remaining : Int
  resetTime : Int
  retryAfter : Option Int
deriving Repr, DecidableEq

/-- `DEFAULT_RATE_LIMITS` table from the source. -/
def DEFAULT_RATE_LIMITS : List (String × RateLimitConfig) :=
  [ ("query", ⟨30, 60 * 1000⟩),
    ("voice", ⟨10, 60 * 1000⟩),
    ("image", ⟨10, 60 * 1000⟩),
    ("session", ⟨60, 60 * 1000⟩),
    ("contexts", ⟨60, 60 * 1000⟩),
    ("default", ⟨100, 60 * 1000⟩) ]

/-- The chat-query configuration: 30 requests per 60000 ms. -/
def queryRateLimit : RateLimitConfig := ⟨30, 60000⟩

/-- Per-identifier request-timestamp store (`this.requests`). -/
def RequestStore : Type := String → List Int

def emptyStore : RequestStore := fun _ => []

def storeSet (st : RequestStore) (k : String) (v : List Int) : RequestStore :=
  fun x => if x = k then v else st x

/-- `RateLimiter.checkLimit`, with `Date.now()` passed in as `now`.
Returns the result together with the updated store.  When
`maxRequests ≤ 0` and the retained timestamp list is empty the source
would compute `undefined + windowMs - now` (`NaN`); that branch is
unreachable for every configuration in `DEFAULT_RATE_LIMITS`, and the
model supplies `now` as the dummy head there. -/
def checkLimit (cfg : RateLimitConfig) (now : Int) (st : RequestStore)
    (identifier : String) : RateLimitResult × RequestStore :=
  let windowStart := now - cfg.windowMs
  let timestamps := (st identifier).filter (fun ts => windowStart < ts)
  let remaining := max 0 (cfg.maxRequests - timestamps.length)
  let resetTime :=
    match timestamps.head? with
    | some t => t + cfg.windowMs
    | none => now + cfg.windowMs
  if cfg.maxRequests ≤ (timestamps.length : Int) then
    let oldest := timestamps.head?.getD now
    let retryAfter := ceilDiv (oldest + cfg.windowMs - now) 1000
    (⟨false, 0, resetTime, some (max 1 retryAfter)⟩, st)
  else
    (⟨true, remaining - 1, resetTime, none⟩,
     storeSet st identifier (timestamps ++ [now]))

/-- Run a sequence of `checkLimit` calls for a single identifier, one call
per element of `times`, returning the results in call order. -/
def runCalls (cfg : RateLimitConfig) (identifier : String) (st : RequestStore) :
    List Int → List RateLimitResult × RequestStore
  | [] => ([], st)
  | t :: rest =>
      let step := checkLimit cfg t st identifier
      let next := runCalls cfg identifier step.2 rest
      (step.1 :: next.1, next.2)

/-! ## ContextManager (src ContextManager.ts)

The filesystem becomes an oracle `fs : String → Option String` mapping a
context file name to its contents (`none` models both a missing file and a
read error, which the source catches and turns into a `null` result).  The
`new Date()` timestamp is an explicit `now : Int`.  The mutable
`loadedContexts` map is the state threaded through each operation. -/

structure ContextContent where
  fileId : String
  domain : String
  content : String
  sections : List (String × String)
  loadedAt : Int
deriving Repr, DecidableEq

structure ContextFileInfo where
  id : String
  name : String
  domain : String
  isLoaded : Bool
deriving Repr, DecidableEq

/-- The fixed `contextFiles` table of `ContextManager`. -/
def contextFiles : List ContextFileInfo :=
  [ ⟨"city", "city.md", "city", true⟩,
    ⟨"slang", "slang.md", "slang", true⟩,
    ⟨"food", "food.md", "food", true⟩,
    ⟨"traffic", "traffic.md", "traffic", true⟩,
    ⟨"etiquette", "etiquette.md", "etiquette", true⟩ ]

/-- The `loadedContexts : Map<string, ContextContent>` field. -/
def CMState : Type := List (String × ContextContent)

/-- Collapse runs of whitespace to a single dash (worker on char lists;
the flag records whether the current position is inside a whitespace run
whose dash has already been emitted). -/
def dashWhitespaceAux : Bool → List Char → List Char
  | _, [] => []
  | inRun, c :: rest =>
      if jsIsSpace c then
        if inRun then dashWhitespaceAux true rest
        else '-' :: dashWhitespaceAux true rest
      else c :: dashWhitespaceAux false rest

/-- Collapse runs of whitespace to a single dash:
`replace(/\s+/g, '-')` applied to a heading name. -/
def dashWhitespace (s : String) : String :=
  ⟨dashWhitespaceAux false s.toList⟩

/-- One step of `parseMarkdownSections`' line loop: recognise `## `/`### `
headings (the source's `/^## (.+)$/` also fires on `### x` lines, capturing
the residual `# x`, so the h2 branch subsumes the h3 one exactly as in JS). -/
def headingName (line : String) : Option String :=
  if jsStartsWith line "## " && line.length > 3 then
    some (line.drop 3)
  else if jsStartsWith line "### " && line.length > 4 then
    some (line.drop 4)
  else
    none

/-- `ContextManager.parseMarkdownSections`.  Sections are kept as an
association list in insertion order (JS `Object.entries` order for the
non-numeric keys produced here); assigning an existing key overwrites in
place. -/
def parseMarkdownSections (content : String) : List (String × String) :=
  let step := fun (acc : List (String × String) × String × List String) (line : String) =>
    let (sections, currentSection, currentContent) := acc
    match headingName line with
    | some name =>
        let sections' :=
          if currentContent.length > 0 then
            mapSet sections currentSection (jsTrim (String.intercalate "\n" currentContent.reverse))
          else sections
        (sections', dashWhitespace (jsToLower name), [])
    | none => (sections, currentSection, line :: currentContent)
  let fin := (jsSplitOnChar '\n' content).foldl step ([], "intro", [])
  if fin.2.2.length > 0 then
    mapSet fin.1 fin.2.1 (jsTrim (String.intercalate "\n" fin.2.2.reverse))
  else fin.1

/-- `ContextManager.loadContext`: returns the loaded content (or `none` for
an unknown id or unreadable file) together with the updated state. -/
def loadContext (fs : String → Option String) (now : Int) (st : CMState)
    (fileId : String) : Option ContextContent × CMState :=
  match contextFiles.find? (fun f => f.id = fileId) with
  | none => (none, st)
  | some fileInfo =>
      match fs fileInfo.name with
      | none => (none, st)
      | some content =>
          let cc : ContextContent :=
            ⟨fileId, fileInfo.domain, content, parseMarkdownSections content, now⟩
          (some cc, mapSet st fileId cc)

/-- `ContextManager.unloadContext`. -/
def unloadContext (st : CMState) (fileId : String) : CMState :=
  mapDelete st fileId

/-- `ContextManager.isContextLoaded`. -/
def isContextLoaded (st : CMState) (fileId : String) : Bool :=
  mapHas st fileId

/-- `ContextManager.getContextForDomain`: first loaded context (in map
insertion order) whose domain matches. -/
def getContextForDomain (st : CMState) (domain : String) : Option ContextContent :=
  ((st.map (·.2)).find? (fun c => c.domain = domain))

/-- `ContextManager.getAvailableContexts`. -/
def getAvailableContexts (st : CMState) : List ContextFileInfo :=
  contextFiles.map (fun f => { f with isLoaded := mapHas st f.id })

/-- `ContextManager.toggleContext`: unload when present, otherwise call
`loadContext` — and report `isLoaded := true` regardless of whether that
load actually succeeded. -/
def toggleContext (fs : String → Option String) (now : Int) (st : CMState)
    (fileId : String) : (String × Bool) × CMState :=
  if isContextLoaded st fileId then
    ((fileId, false), unloadContext st fileId)
  else
    let r := loadContext fs now st fileId
    ((fileId, true), r.2)

/-- `ContextManager.searchInContexts`: case-insensitive substring scan of
every section of every listed context, in list order. -/
def searchInContexts (st : CMState) (query : String) (contextIds : List String) :
    List String :=
  let queryLower := jsToLower query
  contextIds.foldl
    (fun results contextId =>
      match mapGet st contextId with
      | none => results
      | some context =>
          results ++ (context.sections.filterMap
            (fun sec =>
              if jsIncludes (jsToLower sec.2) queryLower then
                some ("[" ++ context.domain ++ "/" ++ sec.1 ++ "]: " ++ sec.2.take 500 ++ "...")
              else none)))
    []

/-! ## SlangInterpreter (src SlangInterpreter.ts)

The slang dictionary `slangEntries : Map<string, ParsedSlangEntry>` is
modelled as an association list in insertion order (the order JS `Map`
iteration uses), keyed by the lowercased phrase (the invariant every one of
the five table parsers establishes via
`set(phrase.toLowerCase(), {...})`). -/

inductive SlangTone where
  | friendly | rude | sarcastic | neutral | affectionate | respectful
  | casual | enthusiastic | admiring | direct | caring | positive | polite
deriving Repr, DecidableEq

structure SlangUsage where
  whoUses : String
  whenAppropriate : String
  whenInappropriate : String
deriving Repr, DecidableEq

structure SlangExplanation where
  phrase : String
  meaning : String
  tone : SlangTone
  usage : SlangUsage
deriving Repr, DecidableEq

structure ParsedSlangEntry where
  phrase : String
  meaning : String
  tone : SlangTone
  whoUses : String
  whenAppropriate : String
  whenInappropriate : String
deriving Repr, DecidableEq

/-- `SlangInterpreter.formatExplanation`. -/
def formatExplanation (entry : ParsedSlangEntry) : SlangExplanation :=
  ⟨entry.phrase, entry.meaning, entry.tone,
   ⟨entry.whoUses, entry.whenAppropriate, entry.whenInappropriate⟩⟩

/-- The containment test of `explainSlang`'s partial-match loop:
`key.includes(phraseLower) || phraseLower.includes(key)`. -/
def slangPartialMatch (phraseLower : String) (key : String) : Bool :=
  jsIncludes key phraseLower || jsIncludes phraseLower key

/-- `SlangInterpreter.explainSlang`, as a function of the parsed entry
table: exact lowercased-key lookup first, then the first entry (in map
insertion order) whose key contains the query or is contained in it. -/
def explainSlangLookup (entries : List (String × ParsedSlangEntry))
    (phrase : String) : Option SlangExplanation :=
  let phraseLower := jsToLower phrase
  match mapGet entries phraseLower with
  | some entry => some (formatExplanation entry)
  | none =>
      (entries.find? (fun kv => slangPartialMatch phraseLower kv.1)).map
        (fun kv => formatExplanation kv.2)

/-! ## APIKeyManager (src APIKeyManager.ts)

Environment credentials become an explicit `APIKeyConfig`; the status is
computed once in the constructor and never mutated afterwards, so a
"manager state" is exactly a constructed record. -/

structure APIKeyConfig where
  openrouter : Option String
  googleCloud : Option String
  googleMaps : Option String
deriving Repr, DecidableEq

structure APIKeyStatus where
  openrouter : Bool
  googleSpeech : Bool
  googleVision : Bool
  googleMaps : Bool
deriving Repr, DecidableEq

inductive FeatureType where
  | openrouter | speech | vision | maps
deriving Repr, DecidableEq

/-- `APIKeyManager.isValidKey`: present and not all-whitespace. -/
def isValidKey : Option String → Bool
  | none => false
  | some key => (jsTrim key).length > 0

/-- `APIKeyManager.computeStatus`: speech and vision are both derived from
the single Google Cloud credential. -/
def computeStatus (keys : APIKeyConfig) : APIKeyStatus :=
  ⟨isValidKey keys.openrouter,
   isValidKey keys.googleCloud,
   isValidKey keys.googleCloud,
   isValidKey keys.googleMaps⟩

structure APIKeyManager where
  keys : APIKeyConfig
  status : APIKeyStatus
deriving Repr, DecidableEq

/-- The `APIKeyManager` constructor. -/
def mkAPIKeyManager (keys : APIKeyConfig) : APIKeyManager :=
  ⟨keys, computeStatus keys⟩

/-- `APIKeyManager.isFeatureEnabled`. -/
def isFeatureEnabled (m : APIKeyManager) : FeatureType → Bool
  | .openrouter => m.status.openrouter
  | .speech => m.status.googleSpeech
  | .vision => m.status.googleVision
  | .maps => m.status.googleMaps

/-! ## LocationService (src LocationService.ts)

Coordinates and ratings are exact rationals (the source only ever compares
them).  The Google Maps dependency becomes a `MapsOracle`: its
availability flag plus the outcome of the one external call a request can
make (`Except.error` models a thrown exception). -/

structure LocationCoordinates where
  lat : ℚ
  lng : ℚ
deriving Repr, DecidableEq

structure PlaceResult where
  name : String
  address : String
  rating : ℚ
  distance : ℚ
  priceLevel : Int
  types : List String
  placeId : String
deriving Repr, DecidableEq

structure EnhancedRecommendation where
  place : PlaceResult
  contextualReasoning : String
  culturalNote : Option String
deriving Repr, DecidableEq

structure FoodRecommendation where
  suggestion : String
  reasoning : String
  contextFactors : List String
  place : Option PlaceResult
  culturalNote : Option String
  aiPowered : Option Bool
deriving Repr, DecidableEq

structure LocationQueryOptions where
  foodType : Option String
  radius : Option ℚ
  persona : Option String
deriving Repr, DecidableEq

structure AreaInfo where
  name : String
  description : String
  foodHighlights : List String
  characteristics : List String
deriving Repr, DecidableEq

structure AreaMapping where
  name : String
  latRange : ℚ × ℚ
  lngRange : ℚ × ℚ
  description : String
  foodHighlights : List String
  characteristics : List String
deriving Repr, DecidableEq

structure MapsOracle where
  available : Bool
  result : Except Unit (List EnhancedRecommendation)

/-- Match a sequence of lowercase literal words separated by `\s*` at the
head of an (already lowercased) character list.  Since every pattern word
starts with a letter, the greedy `\s*` in the source regexes always stops
exactly at the maximal whitespace run. -/
def matchWordsAt : List String → List Char → Bool
  | [], _ => true
  | w :: ws, l =>
      if List.isPrefixOf w.toList l then
        match ws with
        | [] => true
        | _ => matchWordsAt ws ((l.drop w.length).dropWhile jsIsSpace)
      else false

/-- Scan helper for `regexTestWords`. -/
def regexTestAux (ws : List String) : List Char → Bool
  | [] => matchWordsAt ws []
  | c :: rest => matchWordsAt ws (c :: rest) || regexTestAux ws rest

/-- Case-insensitive test of a `word (\s* word)*` regex such as
`/hsr\s*layout/i` against a whole string. -/
def regexTestWords (ws : List String) (content : String) : Bool :=
  regexTestAux ws (jsToLower content).toList

/-- The fixed `areaPatterns` table of `extractAreasFromContext`:
regex words, display name, latitude range, longitude range. -/
def areaPatternTable : List (List String × String × (ℚ × ℚ) × (ℚ × ℚ)) :=
  [ (["koramangala"], "Koramangala", (12.93, 12.95), (77.60, 77.63)),
    (["indiranagar"], "Indiranagar", (12.97, 12.99), (77.63, 77.65)),
    (["hsr", "layout"], "HSR Layout", (12.90, 12.93), (77.63, 77.66)),
    (["jayanagar"], "Jayanagar", (12.92, 12.94), (77.57, 77.60)),
    (["malleshwaram"], "Malleshwaram", (13.00, 13.02), (77.56, 77.58)),
    (["btm", "layout"], "BTM Layout", (12.90, 12.92), (77.60, 77.63)),
    (["whitefield"], "Whitefield", (12.96, 12.99), (77.73, 77.76)),
    (["electronic", "city"], "Electronic City", (12.83, 12.86), (77.65, 77.68)),
    (["mg", "road"], "MG Road", (12.97, 12.98), (77.60, 77.62)),
    (["basavanagudi"], "Basavanagudi", (12.94, 12.96), (77.56, 77.58)) ]

/-- Everything after the first `:` of a line, if any. -/
def afterFirstColon (l : List Char) : Option (List Char) :=
  match l.dropWhile (· ≠ ':') with
  | [] => none
  | _ :: rest => some rest

/-- `LocationService.extractAreaDetails`: the description comes from the
last area-mentioning line that has a colon; `line.match(/([^,]+)/g)` is the
list of nonempty between-comma runs. -/
def extractAreaDetails (content : String) (areaName : String) :
    String × List String × List String :=
  let fin := (jsSplitOnChar '\n' content).foldl
    (fun (acc : String × List String) line =>
      if jsIncludes (jsToLower line) (jsToLower areaName) then
        let description :=
          match afterFirstColon line.toList with
          | some rest => jsTrim ⟨rest⟩
          | none => acc.1
        let charMatch := (jsSplitOnChar ',' line).filter (fun c => c ≠ "")
        let extra := (charMatch.map jsTrim).filter
          (fun c => c.length > 0 && c.length < 50)
        (description, acc.2 ++ extra)
      else acc)
    ("", [])
  (fin.1, [], fin.2)

/-- `LocationService.extractAreasFromContext`: keep each table entry whose
pattern occurs in the city-context text, in table order. -/
def extractAreasFromContext (cityContext : ContextContent) : List AreaMapping :=
  areaPatternTable.filterMap (fun entry =>
    if regexTestWords entry.1 cityContext.content then
      let details := extractAreaDetails cityContext.content entry.2.1
      some ⟨entry.2.1, entry.2.2.1, entry.2.2.2, details.1, details.2.1, details.2.2⟩
    else none)

/-- Bounding-box containment test of `matchLocationToArea`. -/
def inBoundingBox (lat lng : ℚ) (a : AreaMapping) : Bool :=
  a.latRange.1 ≤ lat && lat ≤ a.latRange.2 &&
  a.lngRange.1 ≤ lng && lng ≤ a.lngRange.2

/-- Squared centroid distance.  The source computes
`Math.sqrt((lat-cLat)^2 + (lng-cLng)^2)` and only ever compares the
results; square root is strictly monotone on nonnegatives, so comparisons
of these squared distances coincide with the source's comparisons. -/
def calculateDistanceSq (lat lng : ℚ) (a : AreaMapping) : ℚ :=
  let centerLat := (a.latRange.1 + a.latRange.2) / 2
  let centerLng := (a.lngRange.1 + a.lngRange.2) / 2
  (lat - centerLat) ^ 2 + (lng - centerLng) ^ 2

def toAreaInfo (a : AreaMapping) : AreaInfo :=
  ⟨a.name, a.description, a.foodHighlights, a.characteristics⟩

/-- `LocationService.matchLocationToArea`: first bounding-box containment
in table order, otherwise the closest area by centroid distance (strict
improvement, so the earliest minimum wins), otherwise `none`. -/
def matchLocationToArea (lat lng : ℚ) (areas : List AreaMapping) : Option AreaInfo :=
  match areas.find? (inBoundingBox lat lng) with
  | some area => some (toAreaInfo area)
  | none =>
      match areas with
      | [] => none
      | a0 :: rest =>
          some (toAreaInfo ((a0 :: rest).foldl
            (fun best a =>
              if calculateDistanceSq lat lng a < calculateDistanceSq lat lng best then a
              else best)
            a0))

/-- The `Unknown Area` default of `determineAreaFromCoordinates`. -/
def unknownAreaInfo : AreaInfo :=
  ⟨"Unknown Area", "Area information not available from context", [], []⟩

/-- `LocationService.determineAreaFromCoordinates`. -/
def determineAreaFromCoordinates (location : LocationCoordinates)
    (cityContext : Option ContextContent) : AreaInfo :=
  match cityContext with
  | none => unknownAreaInfo
  | some cc =>
      match matchLocationToArea location.lat location.lng (extractAreasFromContext cc) with
      | some matched => matched
      | none => unknownAreaInfo

structure FoodOption where
  name : String
  type : String
  priceRange : String
  bestFor : String
deriving Repr, DecidableEq

def expectPipe : List Char → Option (List Char)
  | '|' :: rest => some rest
  | _ => none

/-- Split at the next `|`: the `[^|]*` run and what follows it. -/
def pipeSeg (l : List Char) : List Char × List Char :=
  (l.takeWhile (· ≠ '|'), l.dropWhile (· ≠ '|'))

/-- One leftmost match of `/\|[^|]+\|[^|]+\|[^|]+\|[^|]*\|/` at the head of
the list: the matched text and the remainder after it. -/
def rowMatchAt (l : List Char) : Option (String × List Char) := do
  let r0 ← expectPipe l
  let (a, l1) := pipeSeg r0
  if a.isEmpty then none else do
  let r1 ← expectPipe l1
  let (b, l2) := pipeSeg r1
  if b.isEmpty then none else do
  let r2 ← expectPipe l2
  let (c, l3) := pipeSeg r2
  if c.isEmpty then none else do
  let r3 ← expectPipe l3
  let (d, l4) := pipeSeg r3
  let r4 ← expectPipe l4
  some (⟨'|' :: a ++ '|' :: b ++ '|' :: c ++ '|' :: d ++ ['|']⟩, r4)

/-- All non-overlapping leftmost matches (the `g` flag), resuming after
each match.  `fuel` bounds the scan by the input length; every step
consumes at least one character, so the bound is never hit. -/
def rowMatchesAux (fuel : Nat) (l : List Char) : List String :=
  match fuel with
  | 0 => []
  | fuel + 1 =>
      match l with
      | [] => []
      | c :: rest =>
          match rowMatchAt (c :: rest) with
          | some (row, rem) => row :: rowMatchesAux fuel rem
          | none => rowMatchesAux fuel rest

/-- `content.match(/\|[^|]+\|[^|]+\|[^|]+\|[^|]*\|/g) || []`. -/
def rowMatches (content : String) : List String :=
  rowMatchesAux content.toList.length content.toList

/-- The static `restaurantTypes` list of `extractFoodOptionsFromContext`. -/
def restaurantTypes : List FoodOption :=
  [ ⟨"Darshini (Quick Service)", "Quick service", "₹50-150", "Quick breakfast, budget meals"⟩,
    ⟨"Udupi Restaurant", "Vegetarian South Indian", "₹100-300", "Authentic dosas, idlis, thalis"⟩,
    ⟨"Military Hotel", "Non-vegetarian Karnataka", "₹200-400", "Mutton dishes, chicken curry, biryani"⟩ ]

/-- `LocationService.extractFoodOptionsFromContext`. -/
def extractFoodOptionsFromContext (foodContext : ContextContent) : List FoodOption :=
  let content := foodContext.content
  let tableRows := rowMatches content
  let fromTables := tableRows.filterMap (fun row =>
    let cells := (jsSplitOnChar '|' row).filter (fun c => (jsTrim c).length > 0)
    match cells with
    | c0 :: restCells =>
        if cells.length ≥ 3 && !jsIncludes c0 "---" && !jsIncludes (jsToLower c0) "dish" then
          let t := jsTrim ((restCells.get? 0).getD "")
          let pr := jsTrim ((restCells.get? 1).getD "")
          let bf := (restCells.get? 2).map jsTrim
          some ⟨jsTrim c0,
                if t = "" then "Local food" else t,
                if pr = "" then "Varies" else pr,
                match bf with
                | some s => if s = "" then "Anytime" else s
                | none => "Anytime"⟩
        else none
    | [] => none)
  let fromTypes := restaurantTypes.filter (fun rt =>
    jsIncludes (jsToLower content) (((jsSplitOnChar ' ' (jsToLower rt.name)).headD "")))
  fromTables ++ fromTypes

/-- `LocationService.getPersonaSpecificNote`. -/
def getPersonaSpecificNote (persona : String) (foodOption : FoodOption) : String :=
  let p := jsToLower persona
  if p = "newbie" then "This is a safe and popular choice for newcomers"
  else if p = "student" then
    if jsIncludes foodOption.priceRange "50-150" then "Budget-friendly option" else ""
  else if p = "it-professional" then "Quick and convenient for busy schedules"
  else if p = "tourist" then "A must-try local experience"
  else ""

/-- `LocationService.getAreaCharacteristicsFromContext`. -/
def getAreaCharacteristicsFromContext (areaName : String)
    (cityContext : Option ContextContent) : List String :=
  match cityContext with
  | none => []
  | some cc =>
      (jsSplitOnChar '\n' cc.content).foldl
        (fun acc line =>
          if jsIncludes (jsToLower line) (jsToLower areaName) then
            match (jsSplitOnChar ':' line).tail.head? with
            | some afterColon =>
                acc ++ ((jsSplitOnChar ',' afterColon).map jsTrim).filter (fun c => c.length > 0)
            | none => acc
          else acc)
        []

/-- `LocationService.generateReasoning`. -/
def generateReasoning (foodOption : FoodOption) (areaInfo : AreaInfo)
    (areaCharacteristics : List String) (persona : String) : String :=
  let parts : List String :=
    (if areaInfo.name = "Unknown Area" then [] else ["In " ++ areaInfo.name]) ++
    (if foodOption.type = "" then [foodOption.name ++ " is recommended"]
     else [foodOption.name ++ " (" ++ foodOption.type ++ ") is a great choice"]) ++
    (if foodOption.bestFor = "" then [] else ["especially for " ++ foodOption.bestFor]) ++
    (if foodOption.priceRange = "" then [] else ["at " ++ foodOption.priceRange]) ++
    (let note := getPersonaSpecificNote persona foodOption
     if note = "" then [] else [note]) ++
    (if areaCharacteristics.isEmpty then []
     else ["This area is known for " ++ String.intercalate ", " (areaCharacteristics.take 2)])
  String.intercalate ". " parts ++ "."

/-- `LocationService.determineContextFactors`. -/
def determineContextFactors (foodOption : FoodOption) (areaInfo : AreaInfo)
    (foodContext cityContext : Option ContextContent) : List String :=
  (if areaInfo.name = "Unknown Area" then [] else ["Location: " ++ areaInfo.name]) ++
  (if foodContext.isSome then ["Food context: loaded"] else []) ++
  (if cityContext.isSome then ["City context: loaded"] else []) ++
  (if foodOption.type = "" then [] else ["Cuisine type: " ++ foodOption.type])

/-- `LocationService.generateRecommendations`. -/
def generateRecommendations (areaInfo : AreaInfo)
    (foodContext cityContext : Option ContextContent) (persona : String) :
    List FoodRecommendation :=
  let foodOptions :=
    match foodContext with
    | some fc => extractFoodOptionsFromContext fc
    | none => []
  let areaCharacteristics := getAreaCharacteristicsFromContext areaInfo.name cityContext
  let recommendations := (foodOptions.take 5).map (fun fo =>
    { suggestion := fo.name,
      reasoning := generateReasoning fo areaInfo areaCharacteristics persona,
      contextFactors := determineContextFactors fo areaInfo foodContext cityContext,
      place := none, culturalNote := none, aiPowered := none })
  if recommendations.isEmpty && areaInfo.name ≠ "Unknown Area" then
    [ { suggestion := "Explore local eateries in " ++ areaInfo.name,
        reasoning := "Based on your location in " ++ areaInfo.name ++
          ", you can find various dining options nearby. " ++ areaInfo.description,
        contextFactors := ["Location: " ++ areaInfo.name, "Context-based recommendation"],
        place := none, culturalNote := none, aiPowered := none } ]
  else recommendations

/-- `LocationService.getGenericRecommendations`: the two hardcoded
fallback suggestions. -/
def getGenericRecommendations : List FoodRecommendation :=
  [ { suggestion := "Look for nearby restaurants",
      reasoning := "Without local context loaded, we recommend exploring nearby dining options using a maps application.",
      contextFactors := ["No local context available"],
      place := none, culturalNote := none, aiPowered := none },
    { suggestion := "Check online reviews",
      reasoning := "Online review platforms can help you find well-rated restaurants in your area.",
      contextFactors := ["No local context available"],
      place := none, culturalNote := none, aiPowered := none } ]

/-- `LocationService.getContextOnlyRecommendations`. -/
def getContextOnlyRecommendations (location : LocationCoordinates)
    (persona : String) (foodContext cityContext : Option ContextContent) :
    List FoodRecommendation :=
  if foodContext.isNone && cityContext.isNone then
    getGenericRecommendations
  else
    generateRecommendations (determineAreaFromCoordinates location cityContext)
      foodContext cityContext persona

/-- `LocationService.priceLevelToRange`. -/
def priceLevelToRange (priceLevel : Int) : String :=
  let ranges := ["₹50-150", "₹100-300", "₹200-500", "₹500-1000", "₹1000+"]
  if 0 ≤ priceLevel ∧ priceLevel < 5 then
    ranges.getD priceLevel.toNat "₹100-300"
  else "₹100-300"

/-- `LocationService.convertEnhancedToFoodRecommendations`. -/
def convertEnhancedToFoodRecommendations (enhanced : List EnhancedRecommendation)
    (persona : String) (foodContext cityContext : Option ContextContent) :
    List FoodRecommendation :=
  (enhanced.take 10).map (fun rec =>
    let contextFactors :=
      ["Google Maps data"] ++
      (if foodContext.isSome then ["Food context: loaded"] else []) ++
      (if cityContext.isSome then ["City context: loaded"] else []) ++
      (if rec.place.rating > 0 then ["Rating: " ++ toString rec.place.rating ++ "/5"] else []) ++
      (if rec.place.priceLevel > 0 then ["Price level: " ++ toString rec.place.priceLevel ++ "/4"] else [])
    let personaNote := getPersonaSpecificNote persona
      ⟨rec.place.name, rec.place.types.headD "restaurant",
       priceLevelToRange rec.place.priceLevel, ""⟩
    let reasoning :=
      if personaNote = "" then rec.contextualReasoning
      else rec.contextualReasoning ++ " " ++ personaNote
    { suggestion := rec.place.name, reasoning, contextFactors,
      place := some rec.place, culturalNote := rec.culturalNote,
      aiPowered := some true })

/-- `LocationService.getRecommendations`: live Google Maps path when the
capability is available and its call both succeeds and returns something;
any error or empty result falls through to the context-only path. -/
def getRecommendations (maps : MapsOracle) (st : CMState)
    (location : LocationCoordinates) (options : LocationQueryOptions) :
    List FoodRecommendation :=
  let persona := options.persona.getD "newbie"
  let foodContext := getContextForDomain st "food"
  let cityContext := getContextForDomain st "city"
  let live : Option (List FoodRecommendation) :=
    if maps.available then
      match maps.result with
      | .ok enhanced =>
          if enhanced.length > 0 then
            some (convertEnhancedToFoodRecommendations enhanced persona foodContext cityContext)
          else none
      | .error _ => none
    else none
  match live with
  | some recs => recs
  | none => getContextOnlyRecommendations location persona foodContext cityContext

/-! ## ResponseGenerator (src ResponseGenerator.ts)

The OpenAI dependency is split into its availability flag
(`isServiceAvailable`) and the outcome of the awaited call
(`Except.error` models a thrown `OpenAIServiceError` or any other
exception); prompt assembly happens inside that external capability.
`generateResponse` returns the envelope together with the context-manager
state after the load-on-demand loop. -/

inductive Persona where
  | newbie | student | itProfessional | tourist
deriving Repr, DecidableEq

/-- The TS string literal of each `Persona` union member. -/
def personaKey : Persona → String
  | .newbie => "newbie"
  | .student => "student"
  | .itProfessional => "it-professional"
  | .tourist => "tourist"

structure QueryRequest where
  query : String
  persona : Persona
  bangaloreContextEnabled : Bool
  loadedContexts : List String
  location : Option LocationCoordinates
deriving DecidableEq

structure QueryResponse where
  response : String
  contextUsed : List String
  contextFilesUsed : List String
  persona : Persona
  bangaloreContextActive : Bool
  aiPowered : Bool
  locationRecommendations : Option (List FoodRecommendation)
deriving Repr, DecidableEq

/-- `ResponseGenerator.getPersonaPrefix` (the source's unreachable
`default` branch returns `""`; the `Persona` union has exactly these four
members). -/
def getPersonaPrefixText : Persona → String
  | .newbie => "Welcome to Bangalore! 🌱 Here\x27s what you need to know: "
  | .student => "Hey! Quick tip: "
  | .itProfessional => "Here\x27s the info: "
  | .tourist => "Great question! As a visitor, you\x27ll find this helpful: "

/-- `ResponseGenerator.isSlangQuery` (`/slang|meaning|what does|kannada|phrase|say|speak/`). -/
def isSlangQuery (q : String) : Bool :=
  ["slang", "meaning", "what does", "kannada", "phrase", "say", "speak"].any
    (fun w => jsIncludes q w)

/-- `ResponseGenerator.isFoodQuery`. -/
def isFoodQuery (q : String) : Bool :=
  ["food", "eat", "restaurant", "dosa", "coffee", "hungry", "lunch", "dinner",
   "breakfast"].any (fun w => jsIncludes q w)

/-- `ResponseGenerator.isTrafficQuery`. -/
def isTrafficQuery (q : String) : Bool :=
  ["traffic", "commute", "metro", "bus", "auto", "uber", "ola", "travel",
   "route", "reach"].any (fun w => jsIncludes q w)

/-- `ResponseGenerator.isEtiquetteQuery`. -/
def isEtiquetteQuery (q : String) : Bool :=
  ["etiquette", "culture", "custom", "behave", "tip", "greeting", "temple",
   "office"].any (fun w => jsIncludes q w)

/-- Match `\[dom\/[^\]]+\]:\s*` at the head of `l`; on success return what
follows the match.  The greedy `[^\]]+` cannot cross a `]`, so the match
is determined by the first `]` after the opening tag. -/
def tagMatchAt (dom : List Char) (l : List Char) : Option (List Char) :=
  match l with
  | '[' :: r =>
      if List.isPrefixOf dom r then
        match r.drop dom.length with
        | '/' :: r2 =>
            let run := r2.takeWhile (· ≠ ']')
            if run.isEmpty then none
            else
              match r2.dropWhile (· ≠ ']') with
              | ']' :: ':' :: r3 => some (r3.dropWhile jsIsSpace)
              | _ => none
        | _ => none
      else none
  | _ => none

/-- Remove the first (leftmost) match of `\[dom\/[^\]]+\]:\s*` from a
character list, if any. -/
def stripDomainTagAux (dom : List Char) : List Char → Option (List Char)
  | [] => none
  | c :: rest =>
      match tagMatchAt dom (c :: rest) with
      | some rem => some rem
      | none => (stripDomainTagAux dom rest).map (c :: ·)

/-- `content.replace(/\[dom\/[^\]]+\]:\s*/, '')`. -/
def stripDomainTag (dom : String) (s : String) : String :=
  match stripDomainTagAux dom.toList s.toList with
  | some l => ⟨l⟩
  | none => s

/-- `ResponseGenerator.handleSlangQuery`. -/
def handleSlangQuery (persona : Persona) (content : List String) : String :=
  let lead := getPersonaPrefixText persona
  match content.find? (fun c => jsIncludes c "[slang") with
  | some slangContent => lead ++ stripDomainTag "slang" slangContent
  | none =>
      lead ++ "Common Bangalore phrases: \"Swalpa adjust maadi\" (please adjust), \"Guru\" (buddy), \"Sakkath\" (awesome). What specific phrase would you like to know about?"

/-- `ResponseGenerator.handleFoodQuery`. -/
def handleFoodQuery (persona : Persona) (content : List String)
    (locationRecommendations : Option (List FoodRecommendation)) : String :=
  let lead := getPersonaPrefixText persona
  match locationRecommendations with
  | some recs =>
      if recs.length > 0 then
        lead ++ "Based on your location, here are some recommendations:\n\n" ++
          String.intercalate "\n" (recs.map (fun r => "• " ++ r.suggestion ++ ": " ++ r.reasoning))
      else handleFoodQueryContent lead content
  | none => handleFoodQueryContent lead content
where
  handleFoodQueryContent (lead : String) (content : List String) : String :=
    match content.find? (fun c => jsIncludes c "[food") with
    | some foodContent => lead ++ stripDomainTag "food" foodContent
    | none =>
        lead ++ "Must-try in Bangalore: Masala Dosa, Filter Coffee, Bisi Bele Bath. For quick eats, try a Darshini (standing restaurant). VV Puram Food Street is great for street food!"

/-- `ResponseGenerator.handleTrafficQuery`. -/
def handleTrafficQuery (persona : Persona) (content : List String) : String :=
  let lead := getPersonaPrefixText persona
  match content.find? (fun c => jsIncludes c "[traffic") with
  | some trafficContent => lead ++ stripDomainTag "traffic" trafficContent
  | none =>
      lead ++ "Bangalore traffic tip: Avoid Silk Board junction during peak hours (8-10 AM, 5-8 PM). Metro is your best friend for covered routes. For autos, always negotiate or ask \"Meter hakri\" (put the meter)."

/-- `ResponseGenerator.handleEtiquetteQuery`. -/
def handleEtiquetteQuery (persona : Persona) (content : List String) : String :=
  let lead := getPersonaPrefixText persona
  match content.find? (fun c => jsIncludes c "[etiquette") with
  | some etiquetteContent => lead ++ stripDomainTag "etiquette" etiquetteContent
  | none =>
      lead ++ "Key etiquette: Use \"Anna/Akka\" (brother/sister) for strangers, remove shoes at temples and homes, \"Adjust maadi\" is the local motto. Bangalore is friendly - a smile goes a long way!"

/-- `ResponseGenerator.generateGenericResponse`. -/
def generateGenericResponse (query : String) (persona : Persona) : String :=
  getPersonaPrefixText persona ++
    "I can provide general information, but for Bangalore-specific advice, please enable the local context. Your question: \"" ++ query ++ "\""

/-- `ResponseGenerator.generateContextAwareResponse`. -/
def generateContextAwareResponse (query : String) (persona : Persona)
    (relevantContent : List String)
    (locationRecommendations : Option (List FoodRecommendation)) : String :=
  let lead := getPersonaPrefixText persona
  let queryLower := jsToLower query
  if isSlangQuery queryLower then handleSlangQuery persona relevantContent
  else if isFoodQuery queryLower then
    handleFoodQuery persona relevantContent locationRecommendations
  else if isTrafficQuery queryLower then handleTrafficQuery persona relevantContent
  else if isEtiquetteQuery queryLower then handleEtiquetteQuery persona relevantContent
  else
    match relevantContent.head? with
    | some first => lead ++ "Based on local knowledge:\n\n" ++ first
    | none =>
        lead ++ "I\x27d be happy to help with questions about Bangalore! Try asking about local slang, food recommendations, traffic tips, or cultural etiquette."

/-- JS `\w` (word character). -/
def isWordChar (c : Char) : Bool :=
  c.isAlphanum || c = '_'

/-- The `/^\[(\w+)\//` capture of `determineUsedContextFiles`: the word run
between a leading `[` and a `/`. -/
def leadingDomainOf (content : String) : Option String :=
  match content.toList with
  | '[' :: r =>
      let run := r.takeWhile isWordChar
      if run.isEmpty then none
      else
        match r.drop run.length with
        | '/' :: _ => some ⟨run⟩
        | _ => none
  | _ => none

/-- Insertion-ordered set insert (JS `Set.add`). -/
def addUnique (l : List String) (x : String) : List String :=
  if l.contains x then l else l ++ [x]

/-- `ResponseGenerator.determineUsedContextFiles`. -/
def determineUsedContextFiles (relevantContent : List String)
    (loadedContexts : List String) : List String :=
  let usedFiles := relevantContent.foldl
    (fun acc content =>
      match leadingDomainOf content with
      | some dom => addUnique acc (dom ++ ".md")
      | none => acc)
    []
  if usedFiles.length > 0 then usedFiles
  else loadedContexts.map (fun ctx => ctx ++ ".md")

/-- Match `📚 Sources?:\s*(.+)` (case-insensitive) at the head of the list;
on success return the capture group.  The greedy `\s*` backtracks just
enough for `(.+)` to find a non-newline character: if anything follows the
whitespace run the capture starts there, otherwise it is the non-newline
tail of the whitespace itself. -/
def sourcesMarkerAt (l : List Char) : Option (List Char) :=
  match l with
  | '📚' :: ' ' :: ls =>
      if (ls.take 6).map Char.toLower = "source".toList then
        let rest1 := ls.drop 6
        let afterColon : Option (List Char) :=
          match rest1 with
          | ':' :: r => some r
          | c :: ':' :: r => if Char.toLower c = 's' then some r else none
          | _ => none
        match afterColon with
        | none => none
        | some r =>
            let ws := r.takeWhile jsIsSpace
            let tail := r.drop ws.length
            if tail.isEmpty then
              let cap := (ws.reverse.takeWhile (· ≠ '\n')).reverse
              if cap.isEmpty then none else some cap
            else some (tail.takeWhile (· ≠ '\n'))
      else none
  | _ => none

/-- First match of `/📚 Sources?:\s*(.+)/i` anywhere in the list. -/
def findSourcesCapture : List Char → Option (List Char)
  | [] => none
  | c :: rest =>
      match sourcesMarkerAt (c :: rest) with
      | some cap => some cap
      | none => findSourcesCapture rest

/-- `ResponseGenerator.extractContextFilesFromResponse`. -/
def extractContextFilesFromResponse (response : String)
    (loadedContexts : List String) : List String :=
  match findSourcesCapture response.toList with
  | some cap =>
      let sourcesText := jsToLower ⟨cap⟩
      (loadedContexts.filter (fun ctx =>
        jsIncludes sourcesText ctx || jsIncludes sourcesText (ctx ++ ".md"))).map
        (fun ctx => ctx ++ ".md")
  | none => loadedContexts.map (fun ctx => ctx ++ ".md")

/-- `ResponseGenerator.generateFallbackResponse`. -/
def generateFallbackResponse (st : CMState) (query : String) (persona : Persona)
    (bangaloreContextEnabled : Bool) (loadedContexts : List String)
    (locationRecommendations : Option (List FoodRecommendation)) : QueryResponse :=
  if !bangaloreContextEnabled then
    { response := generateGenericResponse query persona,
      contextUsed := [], contextFilesUsed := [], persona,
      bangaloreContextActive := false, aiPowered := false,
      locationRecommendations := none }
  else
    let relevantContent := searchInContexts st query loadedContexts
    let response := generateContextAwareResponse query persona relevantContent
      locationRecommendations
    let contextFilesUsed := determineUsedContextFiles relevantContent loadedContexts
    { response, contextUsed := loadedContexts, contextFilesUsed, persona,
      bangaloreContextActive := true, aiPowered := false,
      locationRecommendations }

/-- The load-on-demand loop at the top of `generateResponse`. -/
def loadRequestedContexts (fs : String → Option String) (now : Int)
    (st : CMState) (ids : List String) : CMState :=
  ids.foldl
    (fun s contextId =>
      if isContextLoaded s contextId then s else (loadContext fs now s contextId).2)
    st

/-- `ResponseGenerator.generateResponse`: load requested contexts, compute
location recommendations for food queries, then try the generative
capability and fall back on unavailability or error.  The function is
total: no failure of the oracles escapes as an error. -/
def generateResponse (svcAvailable : Bool) (aiCall : Except Unit String)
    (maps : MapsOracle) (fs : String → Option String) (now : Int)
    (st : CMState) (request : QueryRequest) : QueryResponse × CMState :=
  let st' := loadRequestedContexts fs now st request.loadedContexts
  let locationRecommendations : Option (List FoodRecommendation) :=
    match request.location with
    | some loc =>
        if isFoodQuery (jsToLower request.query) then
          some (getRecommendations maps st' loc
            ⟨none, none, some (personaKey request.persona)⟩)
        else none
    | none => none
  if svcAvailable then
    match aiCall with
    | .ok aiText =>
        let contextFilesUsed :=
          if request.bangaloreContextEnabled then
            extractContextFilesFromResponse aiText request.loadedContexts
          else []
        ({ response := aiText,
           contextUsed :=
             if request.bangaloreContextEnabled then request.loadedContexts else [],
           contextFilesUsed, persona := request.persona,
           bangaloreContextActive := request.bangaloreContextEnabled,
           aiPowered := true, locationRecommendations }, st')
    | .error _ =>
        (generateFallbackResponse st' request.query request.persona
          request.bangaloreContextEnabled request.loadedContexts
          locationRecommendations, st')
  else
    (generateFallbackResponse st' request.query request.persona
      request.bangaloreContextEnabled request.loadedContexts
      locationRecommendations, st')

/-! ## General helper lemmas -/

theorem find?_eq_filter_head? {α : Type} (p : α → Bool) (l : List α) :
    l.find? p = (l.filter p).head? := by
  induction l with
  | nil => rfl
  | cons a l ih =>
      cases h : p a
      · have h' : ¬ p a = true := by simp [h]
        rw [List.find?_cons_of_neg _ h', List.filter_cons_of_neg h', ih]
      · simp [List.find?_cons_of_pos _ h, List.filter_cons_of_pos h]

theorem length_pos_append_left (s t : String) (h : 0 < s.length) :
    0 < (s ++ t).length := by
  rw [String.length_append]; omega

theorem getPersonaPrefixText_length_pos (p : Persona) :
    0 < (getPersonaPrefixText p).length := by
  cases p <;> decide

/-! ## C10: speech and vision availability always coincide -/

/-- C10: the speech and vision capabilities always have identical
availability: both fields of the status record are computed from the one
Google Cloud credential at construction and the status is never mutated
afterwards, so `isFeatureEnabled 'speech'` equals
`isFeatureEnabled 'vision'` for every constructed capability registry. -/
theorem speech_vision_always_equal (keys : APIKeyConfig) :
    isFeatureEnabled (mkAPIKeyManager keys) .speech =
      isFeatureEnabled (mkAPIKeyManager keys) .vision := rfl

/-! ## C7: toggling an unknown document id -/

/-- C7: contrary to the claim, toggling a document id that is not among
the known context files does NOT surface NotFound: `toggleContext` on a
fresh manager returns `(id, isLoaded := true)` — reporting a successful
load — while the internal `loadContext` returned `none` and nothing was
actually loaded (`isContextLoaded` stays `false`), for every filesystem
oracle. -/
theorem toggleContext_unknown_reports_loaded (fs : String → Option String) (now : Int) :
    toggleContext fs now [] "nonexistent" = (("nonexistent", true), []) ∧
    loadContext fs now [] "nonexistent" = (none, []) ∧
    isContextLoaded (toggleContext fs now [] "nonexistent").2 "nonexistent" = false ∧
    (contextFiles.map (fun f => f.id)).contains "nonexistent" = false := by
  refine ⟨rfl, rfl, rfl, by decide⟩

/-! ## C4: slang phrase lookup -/

/-- C4 counterexample data: two entries as built by the table parsers
(keys are the lowercased phrases), the shorter phrase inserted first. -/
def slangEntryGuru : ParsedSlangEntry :=
  ⟨"Guru", "buddy", .friendly, "Everyone", "Casual talk", "-"⟩

/-- C4 counterexample data: the longer phrase, inserted second. -/
def slangEntrySakkathGuru : ParsedSlangEntry :=
  ⟨"Sakkath Guru", "awesome buddy", .enthusiastic, "Everyone", "Casual talk", "-"⟩

/-- C4 counterexample dictionary state. -/
def slangEntriesCtx : List (String × ParsedSlangEntry) :=
  [("guru", slangEntryGuru), ("sakkath guru", slangEntrySakkathGuru)]

/-- C4 counterexample: for the query "Sakkath Guru!" (no exact key match)
both known phrases match by substring containment, the known phrase
"Sakkath Guru" is strictly longer, yet the lookup returns the entry for
the shorter "Guru" because it was inserted earlier — refuting
"the longest known phrase is the one returned". -/
theorem explainSlang_longest_counterexample :
    (explainSlangLookup slangEntriesCtx "Sakkath Guru!").map (fun e => e.phrase) =
      some "Guru" ∧
    mapGet slangEntriesCtx (jsToLower "Sakkath Guru!") = none ∧
    slangPartialMatch (jsToLower "Sakkath Guru!") "guru" = true ∧
    slangPartialMatch (jsToLower "Sakkath Guru!") "sakkath guru" = true ∧
    ("sakkath guru" : String).length > ("guru" : String).length ∧
    (("Guru" : String) == "Sakkath Guru") = false := by
  refine ⟨by decide, by decide, by decide, by decide, by decide, by decide⟩

/-- C4 (amended): the lookup first tries an exact case-insensitive key
match; failing that it matches by substring containment in either
direction, and of all containment matches the FIRST entry in the
dictionary's insertion order is returned (not the longest known
phrase). -/
theorem explainSlang_insertion_order (entries : List (String × ParsedSlangEntry))
    (phrase : String) :
    explainSlangLookup entries phrase =
      match mapGet entries (jsToLower phrase) with
      | some entry => some (formatExplanation entry)
      | none =>
          ((entries.filter (fun kv => slangPartialMatch (jsToLower phrase) kv.1)).head?).map
            (fun kv => formatExplanation kv.2) := by
  simp only [explainSlangLookup, find?_eq_filter_head?]

/-! ## C8: document search -/

/-- Specification-side characterization (from the claim): the matches a
single document id contributes — every section of the id's loaded
context whose text contains the query case-insensitively, in stored
section order, formatted as the search does. -/
def searchSpecPerDocument (st : CMState) (query : String) (contextId : String) :
    List String :=
  match mapGet st contextId with
  | none => []
  | some context =>
      context.sections.filterMap (fun sec =>
        if jsIncludes (jsToLower sec.2) (jsToLower query) then
          some ("[" ++ context.domain ++ "/" ++ sec.1 ++ "]: " ++ sec.2.take 500 ++ "...")
        else none)

/-- C8: the document search returns exactly the per-document match lists
concatenated in the order of the supplied active id list — i.e. a result
appears iff its section text contains the query case-insensitively, and
results are grouped and ordered by the position of the document id in the
active list.  Being an equation between pure functions this also gives
determinism: identical inputs over identical loaded documents always
produce the identical output sequence. -/
theorem searchInContexts_exact (st : CMState) (query : String) (ids : List String) :
    searchInContexts st query ids = ids.flatMap (searchSpecPerDocument st query) := by
  have aux : ∀ (l : List String) (acc : List String),
      l.foldl
        (fun results contextId =>
          match mapGet st contextId with
          | none => results
          | some context =>
              results ++ (context.sections.filterMap
                (fun sec =>
                  if jsIncludes (jsToLower sec.2) (jsToLower query) then
                    some ("[" ++ context.domain ++ "/" ++ sec.1 ++ "]: " ++ sec.2.take 500 ++ "...")
                  else none)))
        acc
      = acc ++ l.flatMap (searchSpecPerDocument st query) := by
    intro l
    induction l with
    | nil => intro acc; simp
    | cons cid rest ih =>
        intro acc
        simp only [List.foldl_cons, List.flatMap_cons]
        cases h : mapGet st cid with
        | none => rw [ih]; simp [searchSpecPerDocument, h]
        | some context => rw [ih]; simp [searchSpecPerDocument, h]
  unfold searchInContexts
  simpa using aux ids []

/-! ## C5: recommendations with no usable context -/

/-- C5 counterexample state: a city context loaded from a file that
mentions none of the configured areas (and no food context). -/
def cityOnlyNoAreasState : CMState :=
  (loadContext (fun name => if name = "city.md" then some "no areas here" else none)
    0 [] "city").2

/-- C5 counterexample: with the live geo-places capability not configured
and the loaded documents yielding no candidate suggestions, the
recommender can return the EMPTY list rather than the two generic
suggestions: a loaded city context that mentions no configured area gives
no extracted areas, the area stays "Unknown Area", no food options exist,
and `generateRecommendations` returns `[]` — refuting "never an empty
list". -/
theorem getRecommendations_empty_counterexample :
    getRecommendations ⟨false, .error ()⟩ cityOnlyNoAreasState ⟨0, 0⟩
      ⟨none, none, none⟩ = [] ∧
    getGenericRecommendations.length = 2 := by
  refine ⟨by decide, by decide⟩

/-- C5 (amended): the two hardcoded generic suggestions are returned
exactly when NO food or city context document is loaded at all (for every
coordinate pair and every outcome of the unconfigured live capability);
when a context document is loaded but yields no candidates and no area,
the result may instead be empty. -/
theorem getRecommendations_no_context_generics
    (call : Except Unit (List EnhancedRecommendation)) (st : CMState)
    (loc : LocationCoordinates) (opts : LocationQueryOptions)
    (hfood : getContextForDomain st "food" = none)
    (hcity : getContextForDomain st "city" = none) :
    getRecommendations ⟨false, call⟩ st loc opts = getGenericRecommendations := by
  unfold getRecommendations
  simp [hfood, hcity, getContextOnlyRecommendations]

/-- Witness for the amended C5 theorem at a concrete input: the empty
state loads nothing, so the recommender returns the two generics. -/
theorem getRecommendations_no_context_generics_witness :
    getContextForDomain ([] : CMState) "food" = none ∧
    getContextForDomain ([] : CMState) "city" = none ∧
    getRecommendations ⟨false, .error ()⟩ ([] : CMState) ⟨0, 0⟩ ⟨none, none, none⟩ =
      getGenericRecommendations :=
  ⟨rfl, rfl,
    getRecommendations_no_context_generics (.error ()) [] ⟨0, 0⟩ ⟨none, none, none⟩ rfl rfl⟩

/-! ## C6: bounding-box area matching -/

/-- C6 counterexample content: a city context mentioning exactly two
areas whose bounding boxes share the lng = 77.60 edge. -/
def cityCtxTwoAreas : ContextContent :=
  ⟨"city", "city", "koramangala jayanagar",
   parseMarkdownSections "koramangala jayanagar", 0⟩

/-- The Jayanagar entry as extracted from `cityCtxTwoAreas`. -/
def jayanagarExtracted : AreaMapping :=
  ⟨"Jayanagar", (12.92, 12.94), (77.57, 77.60), "", [], ["koramangala jayanagar"]⟩

/-- The Koramangala entry as extracted from `cityCtxTwoAreas`. -/
def koramangalaExtracted : AreaMapping :=
  ⟨"Koramangala", (12.93, 12.95), (77.60, 77.63), "", [], ["koramangala jayanagar"]⟩

/-- The extraction on the counterexample content yields exactly the two
areas, in table order. -/
theorem cityCtxTwoAreas_extract :
    extractAreasFromContext cityCtxTwoAreas = [koramangalaExtracted, jayanagarExtracted] :=
  rfl

/-- C6 counterexample: the point (12.935, 77.60) lies inside the bounding
box of the extracted area Jayanagar, yet `matchLocationToArea` returns
Koramangala (whose box also contains the point on the shared edge and
which comes first in the table) — so for a coordinate pair inside an
extracted area's box the match does not necessarily return that area. -/
theorem matchLocationToArea_overlap_counterexample :
    jayanagarExtracted ∈ extractAreasFromContext cityCtxTwoAreas ∧
    inBoundingBox (12.935 : ℚ) (77.60 : ℚ) jayanagarExtracted = true ∧
    ((matchLocationToArea (12.935 : ℚ) (77.60 : ℚ)
        (extractAreasFromContext cityCtxTwoAreas)).map (fun r => r.name)) =
      some "Koramangala" ∧
    (("Koramangala" : String) == "Jayanagar") = false := by
  have hkbox : inBoundingBox (12.935 : ℚ) (77.60 : ℚ) koramangalaExtracted = true := by
    simp only [inBoundingBox, koramangalaExtracted, Bool.and_eq_true, decide_eq_true_eq]
    norm_num
  refine ⟨?_, ?_, ?_, by decide⟩
  · rw [cityCtxTwoAreas_extract]
    exact List.mem_cons_of_mem _ (List.mem_cons_self _ _)
  · simp only [inBoundingBox, jayanagarExtracted, Bool.and_eq_true, decide_eq_true_eq]
    norm_num
  · unfold matchLocationToArea
    rw [cityCtxTwoAreas_extract, List.find?_cons_of_pos _ hkbox]
    rfl

/-- Every area extracted from a city context carries one of the ten
configured table names. -/
theorem extractAreas_name_mem (cc : ContextContent) (a : AreaMapping)
    (h : a ∈ extractAreasFromContext cc) :
    a.name ∈ areaPatternTable.map (fun e => e.2.1) := by
  unfold extractAreasFromContext at h
  rcases List.mem_filterMap.mp h with ⟨entry, hentry, heq⟩
  cases hc : regexTestWords entry.1 cc.content
  · rw [hc] at heq
    simp at heq
  · rw [hc] at heq
    rw [if_pos rfl] at heq
    rw [← Option.some.inj heq]
    exact List.mem_map_of_mem _ hentry

/-- C6 (amended): for a coordinate pair inside the bounding box of SOME
extracted area, the match returns the FIRST containing area in extraction
(table) order — which is the containing area itself whenever only one box
contains the point — and the returned name is never "Unknown Area". -/
theorem matchLocationToArea_first_containing (cc : ContextContent)
    (lat lng : ℚ) (a : AreaMapping)
    (hmem : a ∈ extractAreasFromContext cc)
    (hbox : inBoundingBox lat lng a = true) :
    matchLocationToArea lat lng (extractAreasFromContext cc) =
      ((extractAreasFromContext cc).find? (inBoundingBox lat lng)).map toAreaInfo ∧
    ((matchLocationToArea lat lng (extractAreasFromContext cc)).map
      (fun r => decide (r.name = "Unknown Area"))) = some false := by
  have hsome : ((extractAreasFromContext cc).find? (inBoundingBox lat lng)).isSome := by
    rw [List.find?_isSome]
    exact ⟨a, hmem, hbox⟩
  rcases Option.isSome_iff_exists.mp hsome with ⟨b, hb⟩
  have hbmem : b ∈ extractAreasFromContext cc := List.mem_of_find?_eq_some hb
  have hbname : b.name ∈ areaPatternTable.map (fun e => e.2.1) :=
    extractAreas_name_mem cc b hbmem
  have hnu : ("Unknown Area" : String) ∉ areaPatternTable.map (fun e => e.2.1) := by
    decide
  have hne : ¬ b.name = "Unknown Area" := fun hcontra => hnu (hcontra ▸ hbname)
  constructor
  · unfold matchLocationToArea
    rw [hb]
    rfl
  · unfold matchLocationToArea
    rw [hb]
    simp [toAreaInfo, hne]

/-- Witness for the amended C6 theorem: the point (12.94, 77.61) lies
only in Koramangala's box among the two extracted areas, and the match
returns Koramangala. -/
theorem matchLocationToArea_first_containing_witness :
    koramangalaExtracted ∈ extractAreasFromContext cityCtxTwoAreas ∧
    inBoundingBox (12.94 : ℚ) (77.61 : ℚ) koramangalaExtracted = true ∧
    matchLocationToArea (12.94 : ℚ) (77.61 : ℚ) (extractAreasFromContext cityCtxTwoAreas) =
      ((extractAreasFromContext cityCtxTwoAreas).find?
        (inBoundingBox (12.94 : ℚ) (77.61 : ℚ))).map toAreaInfo ∧
    ((matchLocationToArea (12.94 : ℚ) (77.61 : ℚ)
        (extractAreasFromContext cityCtxTwoAreas)).map
      (fun r => decide (r.name = "Unknown Area"))) = some false := by
  have hmem : koramangalaExtracted ∈ extractAreasFromContext cityCtxTwoAreas := by
    rw [cityCtxTwoAreas_extract]
    exact List.mem_cons_self _ _
  have hbox : inBoundingBox (12.94 : ℚ) (77.61 : ℚ) koramangalaExtracted = true := by
    simp only [inBoundingBox, koramangalaExtracted, Bool.and_eq_true, decide_eq_true_eq]
    norm_num
  have h := matchLocationToArea_first_containing cityCtxTwoAreas
    (12.94 : ℚ) (77.61 : ℚ) koramangalaExtracted hmem hbox
  exact ⟨hmem, hbox, h.1, h.2⟩

/-! ## C2: sliding-window rate limiting -/

/-- Decidable statement that every call instant of `l` is within the
trailing window of every other (the span of `l` is below `windowMs`). -/
def withinWindow (windowMs : Int) (l : List Int) : Bool :=
  l.all (fun a => l.all (fun b => decide (a - windowMs < b)))

/-- Decidable check that an (optional) result is a rejection carrying a
positive `retryAfter`. -/
def rejectedWithRetry : Option RateLimitResult → Bool
  | some r =>
      !r.allowed &&
        (match r.retryAfter with
         | some v => decide (0 < v)
         | none => false)
  | none => false

theorem storeSet_same (st : RequestStore) (id : String) (v : List Int) :
    storeSet st id v id = v := by
  simp [storeSet]

theorem storeSet_storeSet (st : RequestStore) (id : String) (v w : List Int) :
    storeSet (storeSet st id v) id w = storeSet st id w := by
  funext x
  by_cases hx : x = id <;> simp [storeSet, hx]

theorem runCalls_append (cfg : RateLimitConfig) (id : String) (A B : List Int) :
    ∀ st : RequestStore,
      runCalls cfg id st (A ++ B) =
        ((runCalls cfg id st A).1 ++ (runCalls cfg id (runCalls cfg id st A).2 B).1,
         (runCalls cfg id (runCalls cfg id st A).2 B).2) := by
  induction A with
  | nil => intro st; simp [runCalls]
  | cons t rest ih =>
      intro st
      simp only [List.cons_append, runCalls, List.append_eq]
      rw [ih]

theorem runCalls_length (cfg : RateLimitConfig) (id : String) (ts : List Int) :
    ∀ st : RequestStore, (runCalls cfg id st ts).1.length = ts.length := by
  induction ts with
  | nil => intro st; rfl
  | cons t rest ih => intro st; simp [runCalls, ih]

/-- While the per-identifier occupancy stays below the maximum and every
recorded instant is inside every call's trailing window, each call is
admitted and simply appends its instant. -/
theorem runCalls_under_limit (M W : Int) (id : String) :
    ∀ (ts acc : List Int) (st : RequestStore),
      st id = acc →
      (acc.length : Int) + ts.length ≤ M →
      (∀ x ∈ acc, ∀ t ∈ ts, t - W < x) →
      (∀ x ∈ ts, ∀ t ∈ ts, t - W < x) →
      ((runCalls ⟨M, W⟩ id st ts).1.all (fun r => r.allowed) = true) ∧
      (runCalls ⟨M, W⟩ id st ts).2 = storeSet st id (acc ++ ts) := by
  intro ts
  induction ts with
  | nil =>
      intro acc st hst _ _ _
      refine ⟨rfl, ?_⟩
      funext x
      by_cases hx : x = id
      · subst hx; simp [runCalls, storeSet, hst]
      · simp [runCalls, storeSet, hx]
  | cons t rest ih =>
      intro acc st hst hlen hacc hts
      have hlen' : (acc.length : Int) + (rest.length + 1) ≤ M := by
        simpa [List.length_cons, Nat.cast_add] using hlen
      have hfilt : acc.filter (fun x => decide (t - W < x)) = acc := by
        rw [List.filter_eq_self]
        intro x hx
        exact decide_eq_true (hacc x hx t (List.mem_cons_self _ _))
      have hltM : ¬ ((M : Int) ≤ (acc.filter (fun x => decide (t - W < x))).length) := by
        rw [hfilt]
        omega
      have hstep :
          checkLimit ⟨M, W⟩ t st id =
            (⟨true, max 0 (M - acc.length) - 1,
              (match acc.head? with
               | some ts0 => ts0 + W
               | none => t + W), none⟩,
             storeSet st id (acc ++ [t])) := by
        simp only [checkLimit, hst]
        rw [if_neg hltM, hfilt]
      have hih := ih (acc ++ [t]) (storeSet st id (acc ++ [t]))
        (storeSet_same st id _)
        (by
          simp only [List.length_append, List.length_singleton, Nat.cast_add, Nat.cast_one]
          omega)
        (by
          intro x hx t' ht'
          rcases List.mem_append.mp hx with hx | hx
          · exact hacc x hx t' (List.mem_cons_of_mem _ ht')
          · rcases List.mem_singleton.mp hx with rfl
            exact hts x (List.mem_cons_self _ _) t' (List.mem_cons_of_mem _ ht'))
        (by
          intro x hx t' ht'
          exact hts x (List.mem_cons_of_mem _ hx) t' (List.mem_cons_of_mem _ ht'))
      constructor
      · simp only [runCalls, hstep, List.all_cons]
        rw [Bool.true_and]
        exact hih.1
      · simp only [runCalls, hstep]
        rw [hih.2, storeSet_storeSet, List.append_assoc, List.singleton_append]

/-- `checkLimit` when the retained occupancy has reached the maximum:
rejection with a `retryAfter` of at least one second and no state change. -/
theorem checkLimit_reject (M W now : Int) (st : RequestStore) (id : String)
    (hM : (M : Int) ≤ ((st id).filter (fun x => decide (now - W < x))).length) :
    (checkLimit ⟨M, W⟩ now st id).1.allowed = false ∧
    (∃ v, (checkLimit ⟨M, W⟩ now st id).1.retryAfter = some v ∧ 1 ≤ v) ∧
    (checkLimit ⟨M, W⟩ now st id).2 = st := by
  simp only [checkLimit]
  rw [if_pos hM]
  exact ⟨rfl, ⟨_, rfl, le_max_left _ _⟩, rfl⟩

/-- `checkLimit` when the retained occupancy is below the maximum:
the call is admitted. -/
theorem checkLimit_allow (M W now : Int) (st : RequestStore) (id : String)
    (hM : ¬ ((M : Int) ≤ ((st id).filter (fun x => decide (now - W < x))).length)) :
    (checkLimit ⟨M, W⟩ now st id).1.allowed = true := by
  simp only [checkLimit]
  rw [if_neg hM]

/-- The `query` configuration used by the claim is the `"query"` entry of
`DEFAULT_RATE_LIMITS`. -/
theorem queryRateLimit_in_table :
    mapGet DEFAULT_RATE_LIMITS "query" = some queryRateLimit := by
  decide

/-- Core of the C2 theorem, stated over the literal configuration
`⟨30, 60000⟩` (definitionally `queryRateLimit`). -/
theorem rateLimiter_core (identifier : String) (first : List Int) (t31 : Int)
    (hlen : first.length = 30)
    (hwin : withinWindow 60000 (first ++ [t31]) = true) :
    (((runCalls ⟨30, 60000⟩ identifier emptyStore (first ++ [t31])).1.take 30).all
      (fun r => r.allowed) = true) ∧
    rejectedWithRetry
      (runCalls ⟨30, 60000⟩ identifier emptyStore (first ++ [t31])).1.getLast? = true ∧
    (∀ t1 tLater, first.head? = some t1 → t1 + 60000 ≤ tLater →
      (checkLimit ⟨30, 60000⟩ tLater
        (runCalls ⟨30, 60000⟩ identifier emptyStore (first ++ [t31])).2
        identifier).1.allowed = true) := by
  have hspan : ∀ a ∈ first ++ [t31], ∀ b ∈ first ++ [t31], a - 60000 < b := by
    intro a ha b hb
    have h1 := (List.all_eq_true.mp hwin) a ha
    have h2 := (List.all_eq_true.mp h1) b hb
    exact of_decide_eq_true h2
  have hfirst := runCalls_under_limit 30 60000 identifier first [] emptyStore rfl
    (by rw [hlen]; norm_num)
    (by intro x hx; cases hx)
    (by
      intro x hx t ht
      exact hspan t (List.mem_append_left _ ht) x (List.mem_append_left _ hx))
  have hRF2 : (runCalls ⟨30, 60000⟩ identifier emptyStore first).2 identifier = first := by
    rw [hfirst.2]
    simp [storeSet]
  have hfilt31 : first.filter (fun x => decide (t31 - 60000 < x)) = first := by
    rw [List.filter_eq_self]
    intro x hx
    exact decide_eq_true
      (hspan t31 (List.mem_append_right _ (List.mem_singleton.mpr rfl)) x
        (List.mem_append_left _ hx))
  have hrej := checkLimit_reject 30 60000 t31
    (runCalls ⟨30, 60000⟩ identifier emptyStore first).2 identifier
    (by rw [hRF2, hfilt31, hlen]; norm_num)
  obtain ⟨hrejA, ⟨v, hv, hv1⟩, hrejS⟩ := hrej
  have happ := runCalls_append ⟨30, 60000⟩ identifier first [t31] emptyStore
  have hsingle :
      runCalls ⟨30, 60000⟩ identifier
        (runCalls ⟨30, 60000⟩ identifier emptyStore first).2 [t31] =
      ([(checkLimit ⟨30, 60000⟩ t31
          (runCalls ⟨30, 60000⟩ identifier emptyStore first).2 identifier).1],
       (checkLimit ⟨30, 60000⟩ t31
          (runCalls ⟨30, 60000⟩ identifier emptyStore first).2 identifier).2) := rfl
  have hlenA : (runCalls ⟨30, 60000⟩ identifier emptyStore first).1.length = 30 := by
    rw [runCalls_length]; exact hlen
  refine ⟨?_, ?_, ?_⟩
  · rw [happ, hsingle]
    have htake :
        ((runCalls ⟨30, 60000⟩ identifier emptyStore first).1 ++
          [(checkLimit ⟨30, 60000⟩ t31
            (runCalls ⟨30, 60000⟩ identifier emptyStore first).2 identifier).1]).take 30 =
        (runCalls ⟨30, 60000⟩ identifier emptyStore first).1 := by
      rw [← hlenA]
      exact List.take_left _ _
    rw [htake]
    exact hfirst.1
  · rw [happ, hsingle]
    rw [List.getLast?_concat]
    have hvpos : (0 : Int) < v := by omega
    simp [rejectedWithRetry, hrejA, hv, hvpos]
  · intro t1 tLater hhead hlate
    rw [happ, hsingle]
    rw [hrejS]
    rcases first with _ | ⟨f0, frest⟩
    · cases hhead
    · have hf0 : f0 = t1 := by simpa using hhead
      subst hf0
      apply checkLimit_allow
      rw [hRF2]
      have hnot : ¬ (decide (tLater - 60000 < f0) = true) := by
        simp only [decide_eq_true_eq]
        omega
      rw [List.filter_cons, if_neg hnot]
      have hlen29 : frest.length = 29 := by simpa using hlen
      have hle := List.length_filter_le (fun x => decide (tLater - 60000 < x)) frest
      rw [hlen29] at hle
      intro hcontra
      omega

/-- C2: for every identifier under the chat-query configuration of 30
requests per 60000 ms window, a sequence of 31 `checkLimit` calls whose
instants all lie within one trailing window yields `allowed = true` for
calls 1 through 30 and `allowed = false` with `retryAfter > 0` for call
31; and once the clock has advanced past the oldest recorded timestamp
plus the window, `checkLimit` returns `allowed = true` again. -/
theorem rateLimiter_query_sliding_window (identifier : String)
    (first : List Int) (t31 : Int)
    (hlen : first.length = 30)
    (hwin : withinWindow 60000 (first ++ [t31]) = true) :
    (((runCalls queryRateLimit identifier emptyStore (first ++ [t31])).1.take 30).all
      (fun r => r.allowed) = true) ∧
    rejectedWithRetry
      (runCalls queryRateLimit identifier emptyStore (first ++ [t31])).1.getLast? = true ∧
    (∀ t1 tLater, first.head? = some t1 → t1 + 60000 ≤ tLater →
      (checkLimit queryRateLimit tLater
        (runCalls queryRateLimit identifier emptyStore (first ++ [t31])).2
        identifier).1.allowed = true) :=
  rateLimiter_core identifier first t31 hlen hwin

/-- Witness for C2 at a concrete input: thirty calls at instant 0, a 31st
call also at instant 0, and a later probe at instant 60000 (one full
window after the oldest record). -/
theorem rateLimiter_query_sliding_window_witness :
    (List.replicate 30 (0 : Int)).length = 30 ∧
    withinWindow 60000 (List.replicate 30 (0 : Int) ++ [0]) = true ∧
    (((runCalls queryRateLimit "user" emptyStore
        (List.replicate 30 (0 : Int) ++ [0])).1.take 30).all
      (fun r => r.allowed) = true) ∧
    rejectedWithRetry
      (runCalls queryRateLimit "user" emptyStore
        (List.replicate 30 (0 : Int) ++ [0])).1.getLast? = true ∧
    (checkLimit queryRateLimit 60000
      (runCalls queryRateLimit "user" emptyStore
        (List.replicate 30 (0 : Int) ++ [0])).2 "user").1.allowed = true := by
  have h := rateLimiter_query_sliding_window "user" (List.replicate 30 0) 0
    (by decide) (by decide)
  exact ⟨by decide, by decide, h.1, h.2.1, h.2.2 0 60000 (by decide) (by decide)⟩

/-! ## C1 / C3 / C9: orchestrator envelope properties -/

theorem handleSlangQuery_len (p : Persona) (content : List String) :
    0 < (handleSlangQuery p content).length := by
  have hp := getPersonaPrefixText_length_pos p
  unfold handleSlangQuery
  cases h : content.find? (fun c => jsIncludes c "[slang") <;>
    (simp [String.length_append]; omega)

theorem handleTrafficQuery_len (p : Persona) (content : List String) :
    0 < (handleTrafficQuery p content).length := by
  have hp := getPersonaPrefixText_length_pos p
  unfold handleTrafficQuery
  cases h : content.find? (fun c => jsIncludes c "[traffic") <;>
    (simp [String.length_append]; omega)

theorem handleEtiquetteQuery_len (p : Persona) (content : List String) :
    0 < (handleEtiquetteQuery p content).length := by
  have hp := getPersonaPrefixText_length_pos p
  unfold handleEtiquetteQuery
  cases h : content.find? (fun c => jsIncludes c "[etiquette") <;>
    (simp [String.length_append]; omega)

theorem handleFoodQueryContent_len (lead : String) (content : List String)
    (hl : 0 < lead.length) :
    0 < (handleFoodQuery.handleFoodQueryContent lead content).length := by
  unfold handleFoodQuery.handleFoodQueryContent
  cases h : content.find? (fun c => jsIncludes c "[food") <;>
    (simp [String.length_append]; omega)

theorem handleFoodQuery_len (p : Persona) (content : List String)
    (lr : Option (List FoodRecommendation)) :
    0 < (handleFoodQuery p content lr).length := by
  have hp := getPersonaPrefixText_length_pos p
  unfold handleFoodQuery
  cases lr with
  | none => exact handleFoodQueryContent_len _ content hp
  | some recs =>
      by_cases hlen : recs.length > 0
      · simp only [hlen, if_true]
        simp [String.length_append]
        omega
      · simp only [hlen, if_false]
        exact handleFoodQueryContent_len _ content hp

theorem generateContextAwareResponse_len (query : String) (p : Persona)
    (relevantContent : List String) (lr : Option (List FoodRecommendation)) :
    0 < (generateContextAwareResponse query p relevantContent lr).length := by
  have hp := getPersonaPrefixText_length_pos p
  unfold generateContextAwareResponse
  by_cases h1 : isSlangQuery (jsToLower query)
  · simp only [h1, if_true]
    exact handleSlangQuery_len p relevantContent
  · simp only [h1, if_false]
    by_cases h2 : isFoodQuery (jsToLower query)
    · simp only [h2, if_true]
      exact handleFoodQuery_len p relevantContent lr
    · simp only [h2, if_false]
      by_cases h3 : isTrafficQuery (jsToLower query)
      · simp only [h3, if_true]
        exact handleTrafficQuery_len p relevantContent
      · simp only [h3, if_false]
        by_cases h4 : isEtiquetteQuery (jsToLower query)
        · simp only [h4, if_true]
          exact handleEtiquetteQuery_len p relevantContent
        · simp only [h4, if_false]
          cases h5 : relevantContent.head? <;>
            (simp [String.length_append]; omega)

theorem generateGenericResponse_len (query : String) (p : Persona) :
    0 < (generateGenericResponse query p).length := by
  have hp := getPersonaPrefixText_length_pos p
  unfold generateGenericResponse
  simp [String.length_append]
  omega

/-- Every fallback envelope has a non-empty text (each template starts
with the persona lead-in, which is non-empty for all four personas). -/
theorem generateFallbackResponse_response_pos (st : CMState) (query : String)
    (p : Persona) (en : Bool) (loaded : List String)
    (lr : Option (List FoodRecommendation)) :
    0 < (generateFallbackResponse st query p en loaded lr).response.length := by
  cases en with
  | false => exact generateGenericResponse_len query p
  | true =>
      exact generateContextAwareResponse_len query p
        (searchInContexts st query loaded) lr

theorem generateFallbackResponse_aiPowered (st : CMState) (query : String)
    (p : Persona) (en : Bool) (loaded : List String)
    (lr : Option (List FoodRecommendation)) :
    (generateFallbackResponse st query p en loaded lr).aiPowered = false := by
  cases en <;> rfl

theorem generateFallbackResponse_active (st : CMState) (query : String)
    (p : Persona) (en : Bool) (loaded : List String)
    (lr : Option (List FoodRecommendation)) :
    (generateFallbackResponse st query p en loaded lr).bangaloreContextActive = en := by
  cases en <;> rfl

theorem generateFallbackResponse_contextUsed (st : CMState) (query : String)
    (p : Persona) (en : Bool) (loaded : List String)
    (lr : Option (List FoodRecommendation)) :
    (generateFallbackResponse st query p en loaded lr).contextUsed =
      if en then loaded else [] := by
  cases en <;> rfl

theorem generateFallbackResponse_contextFilesUsed (st : CMState) (query : String)
    (p : Persona) (en : Bool) (loaded : List String)
    (lr : Option (List FoodRecommendation)) :
    (generateFallbackResponse st query p en loaded lr).contextFilesUsed =
      if en then
        determineUsedContextFiles (searchInContexts st query loaded) loaded
      else [] := by
  cases en <;> rfl

/-- C1: when the generative capability is configured
(`isServiceAvailable = true`) but the call throws, `generateResponse`
still returns an envelope: the thrown error never escapes (the embedded
orchestrator is a total function), the text is non-empty, and
`aiPowered` is `false` — for every request, state, clock, filesystem and
maps oracle. -/
theorem generateResponse_absorbs_generative_error
    (maps : MapsOracle) (fs : String → Option String) (now : Int) (st : CMState)
    (query : String) (persona : Persona) (enabled : Bool)
    (loaded : List String) (location : Option LocationCoordinates) :
    ((generateResponse true (Except.error ()) maps fs now st
        ⟨query, persona, enabled, loaded, location⟩).1.aiPowered = false) ∧
    (0 < (generateResponse true (Except.error ()) maps fs now st
        ⟨query, persona, enabled, loaded, location⟩).1.response.length) := by
  constructor
  · exact generateFallbackResponse_aiPowered _ _ _ _ _ _
  · exact generateFallbackResponse_response_pos _ _ _ _ _ _

/-- C3: the returned envelope reflects the request's context-enabled
flag on every path (generative success, generative error, capability
unavailable): with the flag off, `bangaloreContextActive` is `false` and
both `contextUsed` and `contextFilesUsed` are empty; with the flag on,
`bangaloreContextActive` is `true`. -/
theorem generateResponse_context_flag (svcAvailable : Bool)
    (aiCall : Except Unit String) (maps : MapsOracle)
    (fs : String → Option String) (now : Int) (st : CMState)
    (query : String) (persona : Persona) (loaded : List String)
    (location : Option LocationCoordinates) :
    ((generateResponse svcAvailable aiCall maps fs now st
        ⟨query, persona, false, loaded, location⟩).1.bangaloreContextActive = false) ∧
    ((generateResponse svcAvailable aiCall maps fs now st
        ⟨query, persona, false, loaded, location⟩).1.contextUsed = []) ∧
    ((generateResponse svcAvailable aiCall maps fs now st
        ⟨query, persona, false, loaded, location⟩).1.contextFilesUsed = []) ∧
    ((generateResponse svcAvailable aiCall maps fs now st
        ⟨query, persona, true, loaded, location⟩).1.bangaloreContextActive = true) := by
  cases svcAvailable with
  | false =>
      refine ⟨?_, ?_, ?_, ?_⟩
      · exact generateFallbackResponse_active _ _ _ _ _ _
      · exact generateFallbackResponse_contextUsed _ _ _ _ _ _
      · exact generateFallbackResponse_contextFilesUsed _ _ _ _ _ _
      · exact generateFallbackResponse_active _ _ _ _ _ _
  | true =>
      cases aiCall with
      | error e =>
          refine ⟨?_, ?_, ?_, ?_⟩
          · exact generateFallbackResponse_active _ _ _ _ _ _
          · exact generateFallbackResponse_contextUsed _ _ _ _ _ _
          · exact generateFallbackResponse_contextFilesUsed _ _ _ _ _ _
          · exact generateFallbackResponse_active _ _ _ _ _ _
      | ok aiText => exact ⟨rfl, rfl, rfl, rfl⟩

/-- The four attribution fields of a fallback envelope do not depend on
the persona or on the (persona-derived) location recommendations. -/
theorem generateFallbackResponse_persona_independent (st : CMState)
    (query : String) (en : Bool) (loaded : List String) (p1 p2 : Persona)
    (lr1 lr2 : Option (List FoodRecommendation)) :
    ((generateFallbackResponse st query p1 en loaded lr1).contextUsed =
      (generateFallbackResponse st query p2 en loaded lr2).contextUsed) ∧
    ((generateFallbackResponse st query p1 en loaded lr1).contextFilesUsed =
      (generateFallbackResponse st query p2 en loaded lr2).contextFilesUsed) ∧
    ((generateFallbackResponse st query p1 en loaded lr1).bangaloreContextActive =
      (generateFallbackResponse st query p2 en loaded lr2).bangaloreContextActive) ∧
    ((generateFallbackResponse st query p1 en loaded lr1).aiPowered =
      (generateFallbackResponse st query p2 en loaded lr2).aiPowered) := by
  cases en <;> exact ⟨rfl, rfl, rfl, rfl⟩

/-- C9: on the fallback path (generative capability unavailable),
changing only the persona between two runs of the full orchestrator
changes neither which documents are consulted nor which are attributed:
`contextUsed` and `contextFilesUsed` (both computed from the persona-free
`searchInContexts` results) are identical, as are the context-active and
aiPowered flags; only the wording of the response text may differ. -/
theorem generateResponse_persona_independent_attribution
    (aiCall : Except Unit String) (maps : MapsOracle)
    (fs : String → Option String) (now : Int) (st : CMState)
    (query : String) (enabled : Bool) (loaded : List String)
    (location : Option LocationCoordinates) (p1 p2 : Persona) :
    ((generateResponse false aiCall maps fs now st
        ⟨query, p1, enabled, loaded, location⟩).1.contextUsed =
      (generateResponse false aiCall maps fs now st
        ⟨query, p2, enabled, loaded, location⟩).1.contextUsed) ∧
    ((generateResponse false aiCall maps fs now st
        ⟨query, p1, enabled, loaded, location⟩).1.contextFilesUsed =
      (generateResponse false aiCall maps fs now st
        ⟨query, p2, enabled, loaded, location⟩).1.contextFilesUsed) ∧
    ((generateResponse false aiCall maps fs now st
        ⟨query, p1, enabled, loaded, location⟩).1.bangaloreContextActive =
      (generateResponse false aiCall maps fs now st
        ⟨query, p2, enabled, loaded, location⟩).1.bangaloreContextActive) ∧
    ((generateResponse false aiCall maps fs now st
        ⟨query, p1, enabled, loaded, location⟩).1.aiPowered =
      (generateResponse false aiCall maps fs now st
        ⟨query, p2, enabled, loaded, location⟩).1.aiPowered) :=
  generateFallbackResponse_persona_independent
    (loadRequestedContexts fs now st loaded) query enabled loaded p1 p2 _ _

end LocalLens
